import Mathlib

/-!
Shallow embedding of the core of the Netrex-RakNet repository
(`src/frame/mod.rs`, `src/conn.rs`, `src/server.rs`, `src/util.rs`,
`src/connection/queue/send.rs`) together with theorems settling the
frozen claims about it.

Bytes are modelled as `Nat` values (always written reduced mod 256 by the
encoders), byte strings as `List Nat`.  Fallible operations (Rust panics,
`unwrap` on `None`, slice-index panics, integer-overflow panics) are
modelled with `Option`/`Except`.  Machine integers are `Nat` with explicit
`% 2 ^ w` at the points where the Rust code wraps.

Modules of the repository that are referenced but whose source is not part
of `src/` (the `reliability`, `fragment`, `ack`, `binary_utils`,
`SafeGenerator`, `RecoveryQueue` and `FragmentQueue` helpers) are modelled
from the specification; every such definition carries a doc comment
starting with `Modelled from the spec:`.
-/

/-! ### Byte-level primitives (big-endian, as `byteorder::BE` in the source) -/

/-- Big-endian 16-bit write (`write_u16::<BE>`); the value is truncated to
16 bits exactly as the Rust cast chain does. -/
def writeU16BE (v : Nat) : List Nat :=
  [v % 65536 / 256, v % 256]

/-- Big-endian 24-bit write (`write_u24::<BE>`), truncating to 24 bits. -/
def writeU24BE (v : Nat) : List Nat :=
  [v % 16777216 / 65536, v % 65536 / 256, v % 256]

/-- Big-endian 32-bit two's-complement write of an `i32`
(`write_i32::<BE>`). -/
def writeI32BE (v : Int) : List Nat :=
  let u := (v % 4294967296).toNat
  [u / 16777216 % 256, u % 16777216 / 65536, u % 65536 / 256, u % 256]

/-- Read one byte at position `p`; `none` models the Rust panic on a short
buffer. -/
def readU8 (src : List Nat) (p : Nat) : Option Nat :=
  src[p]?

/-- Big-endian 16-bit read at position `p`. -/
def readU16BE (src : List Nat) (p : Nat) : Option Nat := do
  let a ← src[p]?
  let b ← src[p+1]?
  pure (a * 256 + b)

/-- Big-endian 24-bit read at position `p`. -/
def readU24BE (src : List Nat) (p : Nat) : Option Nat := do
  let a ← src[p]?
  let b ← src[p+1]?
  let c ← src[p+2]?
  pure (a * 65536 + b * 256 + c)

/-- Big-endian 32-bit two's-complement read of an `i32` at position `p`. -/
def readI32BE (src : List Nat) (p : Nat) : Option Int := do
  let a ← src[p]?
  let b ← src[p+1]?
  let c ← src[p+2]?
  let d ← src[p+3]?
  let u := a * 16777216 + b * 65536 + c * 256 + d
  pure (if u < 2147483648 then (u : Int) else (u : Int) - 4294967296)

/-! ### Reliability (`src/frame/reliability.rs`, not part of `src/`) -/

/-- Modelled from the spec: the eight reliability variants of
`src/frame/reliability.rs` (a file the repository references but that is
not under `src/`): "Eight values encoded in the top three bits of the
frame flags byte: Unreliable, UnreliableSequenced, Reliable,
ReliableOrdered, ReliableSequenced, UnreliableWithAckReceipt,
ReliableWithAckReceipt, ReliableOrderedWithAckReceipt." -/
inductive Reliability where
  | Unreliable
  | UnreliableSequenced
  | Reliable
  | ReliableOrdered
  | ReliableSequenced
  | UnreliableWithAckReceipt
  | ReliableWithAckReceipt
  | ReliableOrderedWithAckReceipt
deriving DecidableEq, Repr

/-- Modelled from the spec: `Reliability::to_byte`, the conventional RakNet
numbering 0..7 of the variants in declaration order. -/
def Reliability.to_byte : Reliability → Nat
  | .Unreliable => 0
  | .UnreliableSequenced => 1
  | .Reliable => 2
  | .ReliableOrdered => 3
  | .ReliableSequenced => 4
  | .UnreliableWithAckReceipt => 5
  | .ReliableWithAckReceipt => 6
  | .ReliableOrderedWithAckReceipt => 7

/-- Modelled from the spec: `Reliability::from_bit` takes the whole frame
flags byte and decodes the variant held in its top three bits. -/
def Reliability.from_bit (flags : Nat) : Reliability :=
  match flags / 32 % 8 with
  | 0 => .Unreliable
  | 1 => .UnreliableSequenced
  | 2 => .Reliable
  | 3 => .ReliableOrdered
  | 4 => .ReliableSequenced
  | 5 => .UnreliableWithAckReceipt
  | 6 => .ReliableWithAckReceipt
  | _ => .ReliableOrderedWithAckReceipt

/-- Modelled from the spec: the `is_reliable` predicate on a reliability
byte, "the conventional RakNet mapping". -/
def Reliability.is_reliable (b : Nat) : Bool :=
  b == 2 || b == 3 || b == 4 || b == 6 || b == 7

/-- Modelled from the spec: the `is_seq` (`is_sequenced`) predicate on a
reliability byte, the conventional RakNet mapping. -/
def Reliability.is_seq (b : Nat) : Bool :=
  b == 1 || b == 4

/-- Modelled from the spec: the `is_ord` (`is_ordered`) predicate on a
reliability byte, the conventional RakNet mapping (sequenced variants use
an ordering channel as well). -/
def Reliability.is_ord (b : Nat) : Bool :=
  b == 1 || b == 3 || b == 4 || b == 7

/-! ### Frame and FramePacket (`src/frame/mod.rs`) -/

/-- `FragmentInfo` of `src/frame/fragment.rs` (not under `src/`); its three
fields and their types are fixed by the uses in `src/frame/mod.rs`:
`fragment_size: i32`, `fragment_id: u16`, `fragment_index: i32`. -/
structure FragmentInfo where
  fragment_size : Int
  fragment_id : Nat
  fragment_index : Int
deriving DecidableEq, Repr

/-- The `Frame` record of `src/frame/mod.rs`. -/
structure Frame where
  sequence : Nat
  reliable_index : Option Nat
  sequence_index : Option Nat
  order_index : Option Nat
  order_channel : Option Nat
  fragment_info : Option FragmentInfo
  flags : Nat
  size : Nat
  reliability : Reliability
  body : List Nat
deriving DecidableEq, Repr

/-- `Frame::init` of `src/frame/mod.rs`: the dummy frame. -/
def Frame.init : Frame :=
  { sequence := 0
    reliable_index := none
    sequence_index := none
    order_index := none
    order_channel := none
    fragment_info := none
    flags := 0
    size := 0
    reliability := Reliability.from_bit 0
    body := [] }

/-- `Frame::parse` of `src/frame/mod.rs` (the encoder of the `Streamable`
impl): flags byte from the reliability's top three bits plus the `0x10`
fragment bit, a 16-bit bit-length (`(body.len() as u16) * 8`, with the
u16 wrap of the cast), then the optional index fields gated on the
presence of the corresponding `Option`s, the fragment descriptor when
`fragment_size > 0`, and finally the raw body. -/
def Frame.parse (f : Frame) : List Nat :=
  let flags0 := f.reliability.to_byte * 32
  let flags :=
    match f.fragment_info with
    | some fi => if fi.fragment_size > 0 then flags0 + 16 else flags0
    | none => flags0
  [flags] ++ writeU16BE (f.body.length % 65536 * 8) ++
  (match f.reliable_index with
   | some ri => writeU24BE ri
   | none => []) ++
  (match f.sequence_index with
   | some si => writeU24BE si
   | none => []) ++
  (match f.order_index, f.order_channel with
   | some oi, some oc => writeU24BE oi ++ [oc % 256]
   | some oi, none => writeU24BE oi ++ [0]
   | _, _ => []) ++
  (match f.fragment_info with
   | some fi =>
     if fi.fragment_size > 0 then
       writeI32BE fi.fragment_size ++ writeU16BE fi.fragment_id ++
         writeI32BE fi.fragment_index
     else []
   | none => []) ++
  f.body

/-- `Frame::compose` of `src/frame/mod.rs` (the decoder): reads the flags
byte, the 16-bit bit-length, then the optional fields selected by the
reliability predicates and the `0x10` bit; `size` is `bit_length / 8` and
the body is taken — exactly as the source does — as the slice
`source[offset..size]` whenever `source.len() > size` (a slice that
panics, modelled `none`, when `offset > size`).  `none` models every Rust
panic of the original. -/
def Frame.compose (source : List Nat) : Option Frame := do
  let flags ← readU8 source 0
  let rel := Reliability.from_bit flags
  let fragmented := flags % 32 / 16 == 1
  let bit_length ← readU16BE source 1
  let p0 := 3
  let (reliable_index, p1) ←
    if Reliability.is_reliable rel.to_byte then do
      let v ← readU24BE source p0
      pure (some v, p0 + 3)
    else pure ((none : Option Nat), p0)
  let (sequence_index, p2) ←
    if Reliability.is_seq rel.to_byte then do
      let v ← readU24BE source p1
      pure (some v, p1 + 3)
    else pure ((none : Option Nat), p1)
  let (order_index, order_channel, p3) ←
    if Reliability.is_ord rel.to_byte then do
      let oi ← readU24BE source p2
      let oc ← readU8 source (p2 + 3)
      pure (some oi, some oc, p2 + 4)
    else pure ((none : Option Nat), (none : Option Nat), p2)
  let (fragment_info, offset) ←
    if fragmented then do
      let fs ← readI32BE source p3
      let fid ← readU16BE source (p3 + 4)
      let fidx ← readI32BE source (p3 + 6)
      pure (some { fragment_size := fs, fragment_id := fid,
                   fragment_index := fidx : FragmentInfo }, p3 + 10)
    else pure ((none : Option FragmentInfo), p3)
  let size := bit_length / 8
  let body ←
    if source.length > size then
      if offset ≤ size then
        pure ((source.drop offset).take (size - offset))
      else none
    else pure []
  pure { sequence := 0
         reliable_index := reliable_index
         sequence_index := sequence_index
         order_index := order_index
         order_channel := order_channel
         fragment_info := fragment_info
         flags := flags
         size := size
         reliability := rel
         body := body }

/-- The `FramePacket` record of `src/frame/mod.rs`: a 24-bit sequence
number and a list of frames. -/
structure FramePacket where
  seq : Nat
  frames : List Frame
deriving DecidableEq, Repr

/-- `FramePacket::new` of `src/frame/mod.rs`. -/
def FramePacket.new : FramePacket :=
  { seq := 0, frames := [] }

/-- `FramePacket::parse` of `src/frame/mod.rs` (the encoder): the `0x80`
valid-frame header byte, the 24-bit big-endian sequence, then the encoded
frames in order. -/
def FramePacket.parse (p : FramePacket) : List Nat :=
  [128] ++ writeU24BE p.seq ++ (p.frames.map Frame.parse).flatten

/-! ### Socket-address codec (`src/util.rs`) -/

/-- The IP of a peer, as the Rust `IpAddr`: either four IPv4 octets or an
IPv6 address carried here by its textual (colon-separated) form, which is
all `write_address` ever consumes of it. -/
inductive RsIpAddr where
  | v4 (a b c d : Nat)
  | v6 (s : String)
deriving DecidableEq, Repr

/-- A `SocketAddr`: an IP and a 16-bit port. -/
structure RsSocketAddr where
  ip : RsIpAddr
  port : Nat
deriving DecidableEq, Repr

/-- `IpAddr::to_string` of the Rust standard library: dotted decimal for
IPv4, the colon-separated form for IPv6. -/
def ipToString : RsIpAddr → String
  | .v4 a b c d =>
    toString a ++ "." ++ toString b ++ "." ++ toString c ++ "." ++ toString d
  | .v6 s => s

/-- The component list produced by `add.ip().to_string()` followed by
`split(".")` in `write_address`: for an IPv4 address the four decimal
octet strings; for an IPv6 address the colon-separated string contains no
`'.'`, so the split returns the whole string as its single component. -/
def ipStringComponents : RsIpAddr → List String
  | .v4 a b c d => [toString a, toString b, toString c, toString d]
  | .v6 s => [s]

/-- `u8::from_str_radix(p, 10)` of the Rust standard library: parses a
non-empty all-digit decimal string into a byte, failing (`Err`, hence the
`unwrap` panic in `write_address`, modelled `none`) on any non-digit
character, on the empty string and on values above 255. -/
def u8FromStrRadix10 (s : String) : Option Nat :=
  if s.length ≠ 0 ∧ s.data.all Char.isDigit then
    let v := s.data.foldl (fun n c => n * 10 + (c.toNat - 48)) 0
    if v ≤ 255 then some v else none
  else none

/-- Modelled from the spec: `BinaryStream::write_ushort` of the
`binary_utils` crate (not part of `src/`): a big-endian 16-bit write
("All integers are big-endian"). -/
def write_ushort (v : Nat) : List Nat :=
  writeU16BE v

/-- The byte-writing loop of `write_address`: each component is decimal
parsed (`u8::from_str_radix(p, 10).unwrap()`) and written; the first
failing parse panics, modelled `none`. -/
def writeOctets : List String → Option (List Nat)
  | [] => some []
  | s :: rest => do
    let b ← u8FromStrRadix10 s
    let bs ← writeOctets rest
    pure (b :: bs)

/-- `write_address` of `src/util.rs`: writes the family byte (4 for IPv4,
6 otherwise), then decimal-parses every dot-separated component of the
stringified IP as one address byte, then the 2-byte port.  For an IPv6
address the single colon-separated component fails the decimal parse and
the `unwrap` panics, modelled `none`. -/
def write_address (add : RsSocketAddr) : Option (List Nat) := do
  let fam := match add.ip with
    | .v4 _ _ _ _ => [4]
    | .v6 _ => [6]
  let octets ← writeOctets (ipStringComponents add.ip)
  pure (fam ++ octets ++ write_ushort (add.port % 65536))

/-- `read_address` of `src/util.rs`: reads the family byte; for family 4
it reads four address bytes and the big-endian port; for any other family
it returns the dummy address `0.0.0.0:0` without consuming anything
further. -/
def read_address (src : List Nat) : Option RsSocketAddr := do
  let addr_type ← readU8 src 0
  if addr_type == 4 then do
    let a ← readU8 src 1
    let b ← readU8 src 2
    let c ← readU8 src 3
    let d ← readU8 src 4
    let port ← readU16BE src 5
    pure { ip := .v4 a b c d, port := port }
  else
    pure { ip := .v4 0 0 0 0, port := 0 }

/-- `tokenize_addr` of `src/util.rs`: the peer-table key
`"<ip>:<port>"`. -/
def tokenize_addr (remote : RsSocketAddr) : String :=
  ipToString remote.ip ++ ":" ++ toString remote.port

/-! ### Connection (`src/conn.rs`) -/

/-- The `ConnectionState` enum of `src/conn.rs`. -/
inductive ConnectionState where
  | Connecting
  | Connected
  | Disconnected
  | Offline
deriving DecidableEq, Repr

/-- `ConnectionState::is_disconnected` of `src/conn.rs`. -/
def ConnectionState.is_disconnected : ConnectionState → Bool
  | .Disconnected => true
  | _ => false

/-- `ConnectionState.is_available` of `src/conn.rs`. -/
def ConnectionState.is_available : ConnectionState → Bool
  | .Disconnected => false
  | _ => true

/-- Modelled from the spec: the `AckQueue::push_seq` insertion of the
`crate::ack::queue` module (not part of `src/`): the queue is "an ordered
set of 24-bit sequence numbers" and "contains no duplicate sequences", so
inserting an already-present sequence is a no-op.  Only the sequence
matters for the claims; the packet bytes stored alongside are dropped by
the model. -/
def ackPushSeq (q : List Nat) (s : Nat) : List Nat :=
  if q.contains s then q else q ++ [s]

/-- The mutable state of the `Connection` record of `src/conn.rs`.  The
`address`, `time` and `recv` fields (the remote address, server start
time and the user callback) are identity or collaborator handles and are
not part of the mutable protocol state; invocations of the `recv`
callback are returned as an explicit delivery list by the handlers
below. -/
structure Connection where
  mtu_size : Nat
  state : ConnectionState
  send_queue : List (List Nat)
  send_queue_large : List (List Nat)
  fragmented : List (Nat × List Frame)
  fragment_id : Nat
  recv_seq : Nat
  send_seq : Nat
  ack : List Nat
  nack : List Nat
deriving DecidableEq, Repr

/-- `Connection::new` of `src/conn.rs`: mtu 0, state `Disconnected`, all
queues and counters empty or zero. -/
def Connection.new : Connection :=
  { mtu_size := 0
    state := .Disconnected
    send_queue := []
    send_queue_large := []
    fragmented := []
    fragment_id := 0
    recv_seq := 0
    send_seq := 0
    ack := []
    nack := [] }

/-- `Connection::next_send_seq` of `src/conn.rs` acting on the `send_seq`
counter: returns the old value and the incremented counter (`u32`
arithmetic). -/
def next_send_seq (s : Nat) : Nat × Nat :=
  (s, (s + 1) % 4294967296)

/-- `Connection::send` of `src/conn.rs`: when `instant`, wraps the stream
in a single unreliable frame inside a `FramePacket` whose `seq` is drawn
from `next_send_seq` (converted to the 24-bit `u24` field) and appends
its encoding to `send_queue`; otherwise appends the raw stream to
`send_queue_large`. -/
def Connection.send (c : Connection) (stream : List Nat) (instant : Bool) :
    Connection :=
  if instant then
    let (v, s') := next_send_seq c.send_seq
    let pk : FramePacket :=
      { seq := v % 16777216, frames := [{ Frame.init with body := stream }] }
    { c with send_seq := s', send_queue := c.send_queue ++ [pk.parse] }
  else
    { c with send_queue_large := c.send_queue_large ++ [stream] }

/-- Modelled from the spec: `FragmentStore::add_frame` of the
`crate::fragment` module (not part of `src/`): the receive side is "a map
from `compound_id` → (compound_size, map from `fragment_index` → fragment
body)", here an association list from fragment id to the stored fragment
frames.  A frame without fragment info is not stored. -/
def fragStoreAdd (store : List (Nat × List Frame)) (f : Frame) :
    List (Nat × List Frame) :=
  match f.fragment_info with
  | none => store
  | some fi =>
    if (store.find? (fun e => e.1 == fi.fragment_id)).isSome then
      store.map (fun e => if e.1 == fi.fragment_id then (e.1, e.2 ++ [f]) else e)
    else
      store ++ [(fi.fragment_id, [f])]

/-- Modelled from the spec: `FragmentStore::get`. -/
def fragStoreGet (store : List (Nat × List Frame)) (id : Nat) :
    Option (List Frame) :=
  (store.find? (fun e => e.1 == id)).map (fun e => e.2)

/-- Modelled from the spec: `FragmentStore::remove`. -/
def fragStoreRemove (store : List (Nat × List Frame)) (id : Nat) :
    List (Nat × List Frame) :=
  store.filter (fun e => e.1 ≠ id)

/-- Modelled from the spec: the bodies of the stored fragments of a
compound "in index order" — for each fragment index below the compound
size, the body of the frame carrying that index; `none` when an index is
missing. -/
def fragBodiesInOrder (frames : List Frame) : Nat → Option (List Nat)
  | 0 => some []
  | n + 1 => do
    let rest ← fragBodiesInOrder frames n
    let f ← frames.find?
      (fun f => f.fragment_info.any (fun fi => fi.fragment_index == (n : Int)))
    pure (rest ++ f.body)

/-- Modelled from the spec: `FragmentList::reassemble_frame` — "When all
`compound_size` indices are present, concatenate bodies in index order to
form a synthetic frame whose reliability and order fields are inherited
from the first fragment". -/
def reassembleFrame (l : List Frame) : Option Frame :=
  match l with
  | [] => none
  | f0 :: _ =>
    match f0.fragment_info with
    | none => none
    | some fi =>
      if l.length == fi.fragment_size.toNat then
        (fragBodiesInOrder l fi.fragment_size.toNat).map
          (fun body => { f0 with fragment_info := none, body := body })
      else none

/-- `Connection::fragment` of `src/conn.rs`: computes a usable fragment id
(with the `u16` wrap and the reset at 65535), runs the splitting loop —
whose only durable effect is on `fragment_id`, the assembled packets
being discarded by the commented-out dispatch — and bumps `fragment_id`.
The loop never shrinks the source stream, so it panics on the `usize`
underflow of `offset` (or spins forever when `mtu_size = 0`) unless the
stream fits in one MTU or its length is an exact multiple of `mtu_size`;
those failures are modelled `none`. -/
def Connection.fragment (c : Connection) (stream : List Nat) :
    Option Connection :=
  let usable_id := (c.fragment_id + 1) % 65536
  let c1 := if usable_id == 65535 then { c with fragment_id := 0 } else c
  if stream.length ≤ c.mtu_size ∨
      (0 < c.mtu_size ∧ stream.length % c.mtu_size == 0) then
    some { c1 with fragment_id := (c1.fragment_id + 1) % 65536 }
  else
    none

/-- `Connection::handle_full_frame` of `src/conn.rs`.  The first byte of
the frame body selects the handler: `0xfe` (the RakNet `GamePacket`
identifier) invokes the user callback with the body — recorded in the
returned delivery list — and anything else goes to the online handler
(`crate::online::handle_online`, not part of `src/`, passed here as the
`handleOnline` collaborator), whose non-empty response is either
fragmented or wrapped in a fresh unreliable `FramePacket` numbered with
the current `send_seq`, which is then incremented.  No ordering or
sequencing check of any kind is performed (the source carries a `todo`
in their place).  Reading the first byte of an empty body panics,
modelled `none`. -/
def handle_full_frame (handleOnline : List Nat → List Nat)
    (c : Connection) (f : Frame) : Option (Connection × List (List Nat)) :=
  match f.body with
  | [] => none
  | b :: _ =>
    if b == 254 then
      some (c, [f.body])
    else
      let response := handleOnline f.body
      if response.length ≠ 0 then
        if response.length % 65536 > c.mtu_size then
          (c.fragment response).map (fun c2 => (c2, []))
        else
          let pk : FramePacket :=
            { seq := c.send_seq % 16777216
              frames := [{ Frame.init with body := response }] }
          some ({ c with send_queue := c.send_queue ++ [pk.parse],
                         send_seq := (c.send_seq + 1) % 4294967296 }, [])
      else
        some (c, [])

/-- The per-frame loop body of `Connection::handle_frames` of
`src/conn.rs`: fragmented frames go to the fragment store and are
reassembled when complete; whole frames go straight to
`handle_full_frame`.  Deliveries (user-callback invocations) of all
frames are concatenated. -/
def handleFramesGo (handleOnline : List Nat → List Nat)
    (c : Connection) : List Frame → Option (Connection × List (List Nat))
  | [] => some (c, [])
  | f :: rest =>
    match f.fragment_info with
    | some fi =>
      let store := fragStoreAdd c.fragmented f
      let c1 := { c with fragmented := store }
      match fragStoreGet store fi.fragment_id with
      | some lst =>
        match reassembleFrame lst with
        | some full => do
          let (c2, ds) ← handle_full_frame handleOnline c1 full
          let c3 := { c2 with
            fragmented := fragStoreRemove c2.fragmented fi.fragment_id }
          let (c4, ds2) ← handleFramesGo handleOnline c3 rest
          pure (c4, ds ++ ds2)
        | none => handleFramesGo handleOnline c1 rest
      | none => handleFramesGo handleOnline c1 rest
    | none => do
      let (c2, ds) ← handle_full_frame handleOnline c f
      let (c3, ds2) ← handleFramesGo handleOnline c2 rest
      pure (c3, ds ++ ds2)

/-- `Connection::handle_frames` of `src/conn.rs`: pushes the packet's
sequence into the ACK queue — unconditionally, with no duplicate check —
and then processes every frame of the packet. -/
def handle_frames (handleOnline : List Nat → List Nat)
    (c : Connection) (fp : FramePacket) :
    Option (Connection × List (List Nat)) :=
  handleFramesGo handleOnline { c with ack := ackPushSeq c.ack fp.seq }
    fp.frames

/-! ### Dispatcher (`src/server.rs`) -/

/-- The peer-table step of the `recv_thread` loop in
`RakNetServer::start` (`src/server.rs`): on a datagram from `remote`, if
the table has no entry under `tokenize_addr(remote)` a fresh
`Connection::new` is inserted there (the datagram is then handed to
`Connection::recv`, which is not part of this step). -/
def dispatchDatagram (table : List (String × Connection))
    (remote : RsSocketAddr) : List (String × Connection) :=
  if (table.lookup (tokenize_addr remote)).isSome then table
  else table ++ [(tokenize_addr remote, Connection.new)]

/-! ### Outbound sequence-number trace (for the `send_seq` counter of
`src/conn.rs`) -/

/-- The `send_seq` counter after `k` sequence assignments, starting from
`s0`; each assignment advances the counter through `next_send_seq`. -/
def sendSeqState (s0 : Nat) : Nat → Nat
  | 0 => s0
  | k + 1 => (next_send_seq (sendSeqState s0 k)).2

/-- The 24-bit `FramePacket.seq` value assigned by the `(k+1)`-th
assignment: the counter value handed out by `next_send_seq`, reduced by
the `u24` conversion at the `frame_packet.seq` store. -/
def assignedSeq (s0 k : Nat) : Nat :=
  (next_send_seq (sendSeqState s0 k)).1 % 16777216

/-! ### Send queue (`src/connection/queue/send.rs`) -/

/-- Modelled from the spec: the `Reliability` enum of
`crate::protocol::reliability` used by `src/connection/queue/send.rs`
(the module itself is not under `src/`): the variants named by the send
queue, with the conventional RakNet predicates. -/
inductive ReliabilityQ where
  | Unreliable
  | UnreliableSeq
  | Reliable
  | ReliableOrd
  | ReliableSeq
deriving DecidableEq, Repr

/-- Modelled from the spec: `Reliability::is_reliable` of
`crate::protocol::reliability`. -/
def ReliabilityQ.is_reliable : ReliabilityQ → Bool
  | .Reliable => true
  | .ReliableOrd => true
  | .ReliableSeq => true
  | _ => false

/-- Modelled from the spec: `Reliability::is_ordered` of
`crate::protocol::reliability`. -/
def ReliabilityQ.is_ordered : ReliabilityQ → Bool
  | .ReliableOrd => true
  | _ => false

/-- Modelled from the spec: `Reliability::is_sequenced` of
`crate::protocol::reliability`. -/
def ReliabilityQ.is_sequenced : ReliabilityQ → Bool
  | .UnreliableSeq => true
  | .ReliableSeq => true
  | _ => false

/-- Modelled from the spec: the `Frame` record of `crate::protocol::frame`
used by `src/connection/queue/send.rs` (not under `src/`): reliability,
the optional reliable/sequence/order indices and channel, the optional
fragment descriptor `(compound_size, compound_id, fragment_index)` and
the payload. -/
structure FrameQ where
  reliability : ReliabilityQ
  reliable_index : Option Nat
  sequence_index : Option Nat
  order_index : Option Nat
  order_channel : Option Nat
  fragment_meta : Option (Nat × Nat × Nat)
  body : List Nat
deriving DecidableEq, Repr

/-- Modelled from the spec: `Frame::new(reliability, Some(body))` — a
frame with the given reliability and payload and no indices or fragment
descriptor. -/
def FrameQ.new (r : ReliabilityQ) (body : List Nat) : FrameQ :=
  { reliability := r
    reliable_index := none
    sequence_index := none
    order_index := none
    order_channel := none
    fragment_meta := none
    body := body }

/-- Modelled from the spec: the `FramePacket` record of
`crate::protocol::frame` as used by `src/connection/queue/send.rs`: a
sequence number, the reliability field the send queue sets on it, and the
list of frames. -/
structure FramePacketQ where
  sequence : Nat
  reliability : ReliabilityQ
  frames : List FrameQ
deriving DecidableEq, Repr

/-- Modelled from the spec: `FramePacket::new()`. -/
def FramePacketQ.new : FramePacketQ :=
  { sequence := 0, reliability := .Unreliable, frames := [] }

/-- The `SendQueueError` enum of `src/connection/queue/send.rs` (the
fragment-error payload is collapsed to the single failure the modelled
splitter can produce). -/
inductive SendQueueError where
  | PacketTooLarge
  | ParseError
  | FragmentError
  | SendError
deriving DecidableEq, Repr

/-- Modelled from the spec: `RecoveryQueue::insert_id` of
`crate::connection::queue` (not under `src/`): the recovery queue is a
"mapping from sent `FramePacket.sequence` → `FramePacket`"; inserting
under an existing key overwrites. -/
def rqInsertId (q : List (Nat × FramePacketQ)) (seq : Nat)
    (pk : FramePacketQ) : List (Nat × FramePacketQ) :=
  q.filter (fun e => e.1 ≠ seq) ++ [(seq, pk)]

/-- Modelled from the spec: `RecoveryQueue::get` — the stored packet for a
sequence, `none` for the `Err` of a missing entry. -/
def rqGet (q : List (Nat × FramePacketQ)) (seq : Nat) : Option FramePacketQ :=
  (q.find? (fun e => e.1 == seq)).map (fun e => e.2)

/-- Modelled from the spec: `RecoveryQueue::remove` — drops the entry for
a sequence (a missing entry is the ignored `Err`). -/
def rqRemove (q : List (Nat × FramePacketQ)) (seq : Nat) :
    List (Nat × FramePacketQ) :=
  q.filter (fun e => e.1 ≠ seq)

/-- `RAKNET_HEADER_FRAME_OVERHEAD` of `crate::protocol` (not under
`src/`).  Modelled from the spec: the per-frame header overhead constant;
the spec does not fix its numeric value, so the 9 bytes of a maximal
frame-packet header (packet id, 24-bit sequence, flags, 16-bit length,
24-bit reliable index) are used.  No claim below depends on the value. -/
def RAKNET_HEADER_FRAME_OVERHEAD : Nat := 9

/-- The mutable state of the `SendQueue` record of
`src/connection/queue/send.rs`.  The `socket` and `address` collaborators
are external; the packets written to the socket are returned by the
operations below as explicit lists.  The `ack` field is the recovery
queue, `fragment_queue` is the pair (next compound id, stored fragment
lists). -/
structure SendQueue where
  mtu_size : Nat
  send_seq : Nat
  reliable_seq : Nat
  ack : List (Nat × FramePacketQ)
  fragment_queue : Nat × List (Nat × List FrameQ)
  order_channels : List (Nat × (Nat × Nat))
  ready : List FrameQ
deriving DecidableEq, Repr

/-- Modelled from the spec: `SafeGenerator::next` of `crate::util` (the
later `util` module, not under `src/`): a wrapping 32-bit counter that is
advanced and handed out ("Counters use wrapping arithmetic: ... 32-bit
for reliable/order/sequence indices"); `get` reads the current value
without advancing. -/
def safeGenNext (s : Nat) : Nat × Nat :=
  ((s + 1) % 4294967296, (s + 1) % 4294967296)

/-- Modelled from the spec: `FragmentQueue::split_insert` of
`crate::connection::queue` (not under `src/`): "split into fragments of
size `MTU − header_overhead`, assign a new `compound_id =
next(fragment_id)`, index fragments `0..n`"; fails when the chunk size is
zero or the compound size would overflow 16 bits (`PacketTooLarge`).
Returns the assigned compound id and the updated queue. -/
def splitInsert (fq : Nat × List (Nat × List FrameQ)) (packet : List Nat)
    (mtu : Nat) : Option (Nat × (Nat × List (Nat × List FrameQ))) :=
  let chunk := mtu - RAKNET_HEADER_FRAME_OVERHEAD
  if chunk == 0 then none
  else
    let n := (packet.length + chunk - 1) / chunk
    if n ≥ 65536 then none
    else
      let id := (fq.1 + 1) % 65536
      let frames := (List.range n).map (fun i =>
        { FrameQ.new .Unreliable ((packet.drop (i * chunk)).take chunk) with
            fragment_meta := some (n, id, i) })
      some (id, (id, fq.2 ++ [(id, frames)]))

/-- Modelled from the spec: `FragmentQueue::get_mut` — the stored fragment
frames of a compound id. -/
def fragQueueGet (fq : Nat × List (Nat × List FrameQ)) (id : Nat) :
    Option (List FrameQ) :=
  (fq.2.find? (fun e => e.1 == id)).map (fun e => e.2)

/-- Modelled from the spec: overwriting the stored fragment frames of a
compound id (the effect of mutating through `get_mut`). -/
def fragQueueSet (fq : Nat × List (Nat × List FrameQ)) (id : Nat)
    (frames : List FrameQ) : Nat × List (Nat × List FrameQ) :=
  (fq.1, fq.2.map (fun e => if e.1 == id then (e.1, frames) else e))

/-- The association-list update underlying
`order_channels.entry(ch).or_insert((0,0))` of
`src/connection/queue/send.rs`: looks up the channel's counter pair,
inserting `(0, 0)` first when absent, then stores the image of `f`. -/
def orderChannelsUpdate (m : List (Nat × (Nat × Nat))) (ch : Nat)
    (f : Nat × Nat → Nat × Nat) : (Nat × Nat) × List (Nat × (Nat × Nat)) :=
  match m.lookup ch with
  | some p => (f p, m.map (fun e => if e.1 == ch then (e.1, f p) else e))
  | none => (f (0, 0), m ++ [(ch, f (0, 0))])

/-- `SendQueue::send_frame` of `src/connection/queue/send.rs`: builds a
`FramePacket` around the single frame, numbering it with
`send_seq.next()`; a reliable frame gets `reliable_index =
reliable_seq.next()` and the packet is retained in the recovery queue
under `reliable_seq.get()`; the encoded packet goes to the socket
(returned here as the sent packet). -/
def send_frame (st : SendQueue) (frame : FrameQ) :
    SendQueue × FramePacketQ :=
  let (seq, sseq') := safeGenNext st.send_seq
  let st := { st with send_seq := sseq' }
  let pkRel := frame.reliability
  let (frame, st) :=
    if pkRel.is_reliable then
      let (r, rseq') := safeGenNext st.reliable_seq
      ({ frame with reliable_index := some r }, { st with reliable_seq := rseq' })
    else (frame, st)
  let pk : FramePacketQ :=
    { sequence := seq, reliability := pkRel, frames := [frame] }
  let st :=
    if pkRel.is_reliable then
      { st with ack := rqInsertId st.ack st.reliable_seq pk }
    else st
  (st, pk)

/-- `SendQueue::insert` of `src/connection/queue/send.rs`, returning the
result, the updated queue and the packets written to the socket.  The
forced reliability (`ReliableOrd` when the payload exceeds `mtu_size +
RAKNET_HEADER_FRAME_OVERHEAD`) is computed into `reliable` exactly as in
the source — which then matches on the *original* `reliability` argument,
sending `Unreliable` and `Reliable` payloads of any size out immediately
with their requested reliability, and uses `reliable` only on the
small-payload fallthrough path. -/
def SendQueue.insert (st : SendQueue) (packet : List Nat)
    (reliability : ReliabilityQ) (immediate : Bool) (channel : Option Nat) :
    Except SendQueueError Unit × SendQueue × List FramePacketQ :=
  let reliable :=
    if packet.length > st.mtu_size + RAKNET_HEADER_FRAME_OVERHEAD then
      ReliabilityQ.ReliableOrd
    else reliability
  match reliability with
  | .Unreliable =>
    let (st, pk) := send_frame st (FrameQ.new .Unreliable packet)
    (.ok (), st, [pk])
  | .Reliable =>
    let (st, pk) := send_frame st (FrameQ.new .Reliable packet)
    (.ok (), st, [pk])
  | _ =>
    if packet.length > st.mtu_size + RAKNET_HEADER_FRAME_OVERHEAD then
      let (seq, sseq') := safeGenNext st.send_seq
      let st := { st with send_seq := sseq' }
      let pk := { FramePacketQ.new with sequence := seq, reliability := reliability }
      match splitInsert st.fragment_queue packet st.mtu_size with
      | some (frag_id, fq') =>
        let st := { st with fragment_queue := fq' }
        match fragQueueGet st.fragment_queue frag_id with
        | some frames =>
          let (p, oc') := orderChannelsUpdate st.order_channels
            (channel.getD 0)
            (fun p => ((p.1 + 1) % 4294967296, (p.2 + 1) % 4294967296))
          let st := { st with order_channels := oc' }
          let (frames, st) := frames.foldl
            (fun (acc : List FrameQ × SendQueue) fr =>
              let (fs, st) := acc
              let fr := { fr with
                reliability := reliability
                sequence_index := some p.1
                order_channel := some (channel.getD 0)
                order_index := some p.2 }
              if fr.reliability.is_reliable then
                let (r, rseq') := safeGenNext st.reliable_seq
                (fs ++ [{ fr with reliable_index := some r }],
                 { st with reliable_seq := rseq' })
              else (fs ++ [fr], st)) ([], st)
          let st := { st with fragment_queue := fragQueueSet st.fragment_queue frag_id frames }
          let st := { st with ack := rqInsertId st.ack pk.sequence pk }
          (.ok (), st, [pk])
        | none =>
          -- unreachable after a successful `split_insert`; the source
          -- `unwrap`s here, so the panic is modelled as a send error
          (.error .SendError, st, [])
      | none => (.error .FragmentError, st, [])
    else
      let frame := FrameQ.new reliable packet
      let (frame, st) :=
        if frame.reliability.is_reliable then
          let (r, rseq') := safeGenNext st.reliable_seq
          ({ frame with reliable_index := some r }, { st with reliable_seq := rseq' })
        else (frame, st)
      let (frame, st) :=
        if frame.reliability.is_ordered then
          let (p, oc') := orderChannelsUpdate st.order_channels
            (channel.getD 0) (fun p => (p.1, (p.2 + 1) % 4294967296))
          ({ frame with order_index := some p.2, sequence_index := some st.send_seq },
           { st with order_channels := oc' })
        else if frame.reliability.is_sequenced then
          let (p, oc') := orderChannelsUpdate st.order_channels
            (channel.getD 0) (fun p => ((p.1 + 1) % 4294967296, p.2))
          ({ frame with order_index := some p.2, sequence_index := some p.1 },
           { st with order_channels := oc' })
        else (frame, st)
      if immediate then
        let (st, pk) := send_frame st frame
        (.ok (), st, [pk])
      else
        (.ok (), { st with ready := st.ready ++ [frame] }, [])

/-- The `Record` enum of `crate::protocol::ack` as consumed by
`src/connection/queue/send.rs`.  Modelled from the spec: "each record is
a 1-byte discriminator (1 = single, 0 = range) followed by either one
24-bit sequence or two 24-bit sequences (inclusive endpoints)" — a
`Range` record therefore denotes the closed interval from `start` to
`endSeq`. -/
inductive AckRecord where
  | Single (sequence : Nat)
  | Range (start endSeq : Nat)
deriving DecidableEq, Repr

/-- Modelled from the spec: the `Ack` packet of `crate::protocol::ack` as
consumed by the send queue: its record list and its ACK/NACK polarity
(`is_nack`). -/
structure AckPkt where
  records : List AckRecord
  nackFlag : Bool
deriving DecidableEq, Repr

/-- The `Ackable::ack` impl for `SendQueue` of
`src/connection/queue/send.rs`: a NACK is ignored; otherwise each Single
sequence is removed from the recovery queue and each Range record removes
the sequences of the *half-open* Rust iteration `start..end` — the
inclusive right endpoint of the record is never removed. -/
def SendQueue.ackHandle (st : SendQueue) (ack : AckPkt) : SendQueue :=
  if ack.nackFlag then st
  else
    { st with ack := ack.records.foldl (fun q r =>
        match r with
        | .Single s => rqRemove q s
        | .Range s e => (List.range' s (e - s)).foldl rqRemove q) st.ack }

/-- The `Ackable::nack` impl for `SendQueue` of
`src/connection/queue/send.rs`: an ACK yields nothing; otherwise the
recovery queue is probed for each Single sequence and for each sequence
of the *half-open* Rust iteration `start..end` of a Range record, and
every hit is cloned into the resend list. -/
def SendQueue.nackHandle (st : SendQueue) (nack : AckPkt) :
    List FramePacketQ :=
  if !nack.nackFlag then []
  else
    nack.records.foldl (fun acc r =>
      match r with
      | .Single s =>
        match rqGet st.ack s with
        | some pk => acc ++ [pk]
        | none => acc
      | .Range s e =>
        (List.range' s (e - s)).foldl (fun acc i =>
          match rqGet st.ack i with
          | some pk => acc ++ [pk]
          | none => acc) acc) []

/-! ## Claim theorems -/

/-! ### C1 — frame codec round trip -/

/-- A well-formed unreliable frame with an 8-byte user payload
(`0xfe`-tagged), as produced by `Frame::init` plus a body. -/
def c1Frame : Frame :=
  { Frame.init with body := [254, 1, 2, 3, 4, 5, 6, 7] }

/-- C1: the codec round-trip claim fails on the code.  Encoding the
unreliable frame `c1Frame` yields the 11 bytes `[0, 0, 64] ++ body`, but
decoding them back recovers only `body[0..5]` — `Frame::compose` slices
the body as `source[offset..size]` instead of
`source[offset..offset+size]` — so `compose (parse f) ≠ f`; and
re-encoding the decoded frame yields a different, shorter byte string
than the (syntactically valid) original, so `parse (compose b) ≠ b` as
well. -/
theorem frame_codec_roundtrip_fails_on_unreliable_frame :
    Frame.parse c1Frame = [0, 0, 64, 254, 1, 2, 3, 4, 5, 6, 7] ∧
    Frame.compose (Frame.parse c1Frame) =
      some { c1Frame with size := 8, body := [254, 1, 2, 3, 4] } ∧
    (Frame.compose (Frame.parse c1Frame)).map Frame.body ≠ some c1Frame.body ∧
    (Frame.compose (Frame.parse c1Frame)).map Frame.parse ≠
      some (Frame.parse c1Frame) := by
  decide

/-! ### C2, C3, C4, C10 — the send queue -/

/-- A send queue with a 10-byte negotiated MTU and everything else
fresh. -/
def sq0 : SendQueue :=
  { mtu_size := 10
    send_seq := 0
    reliable_seq := 0
    ack := []
    fragment_queue := (0, [])
    order_channels := []
    ready := [] }

/-- A 20-byte payload: larger than `mtu_size + RAKNET_HEADER_FRAME_OVERHEAD
= 19`, hence also larger than `mtu_size − RAKNET_HEADER_FRAME_OVERHEAD`. -/
def c2Pkt : List Nat := List.replicate 20 7

/-- C2: the forced-reliability claim fails on the code.  For a payload
whose length exceeds the MTU threshold (both `mtu − overhead` and the
`mtu + overhead` actually tested by the source), `SendQueue::insert`
called with `Unreliable` (and likewise `Reliable`) still sends the frame
with the requested reliability, not `ReliableOrd`: the forced value is
computed into the local `reliable` but the dispatch matches on the
original `reliability` argument. -/
theorem insert_oversize_payload_keeps_requested_reliability :
    c2Pkt.length > sq0.mtu_size + RAKNET_HEADER_FRAME_OVERHEAD ∧
    c2Pkt.length > sq0.mtu_size - RAKNET_HEADER_FRAME_OVERHEAD ∧
    (SendQueue.insert sq0 c2Pkt .Unreliable true none).2.2.map
      (fun pk => pk.frames.map (fun f => f.reliability)) =
      [[ReliabilityQ.Unreliable]] ∧
    (SendQueue.insert sq0 c2Pkt .Reliable true none).2.2.map
      (fun pk => pk.frames.map (fun f => f.reliability)) =
      [[ReliabilityQ.Reliable]] ∧
    ReliabilityQ.Unreliable ≠ ReliabilityQ.ReliableOrd := by
  decide

/-- Recovery-queue packets stored under sequences 3, 4 and 5. -/
def rpk3 : FramePacketQ := { sequence := 3, reliability := .Reliable, frames := [] }

/-- See `rpk3`. -/
def rpk4 : FramePacketQ := { sequence := 4, reliability := .Reliable, frames := [] }

/-- See `rpk3`. -/
def rpk5 : FramePacketQ := { sequence := 5, reliability := .Reliable, frames := [] }

/-- C3: the NACK-retransmission claim fails on the code at the inclusive
right endpoint of a Range record.  With the recovery queue holding
sequence 5 and an inbound NACK carrying `Range(3, 5)` — whose closed
interval contains 5 — `Ackable::nack` retransmits nothing, because the
source iterates the half-open `start..end`.  A `Single(5)` record on the
same queue does retransmit the stored packet unchanged, under its
original sequence. -/
theorem nack_range_endpoint_not_retransmitted :
    rqGet ({ sq0 with ack := [(5, rpk5)] } : SendQueue).ack 5 = some rpk5 ∧
    (3 ≤ 5 ∧ 5 ≤ 5) ∧
    SendQueue.nackHandle { sq0 with ack := [(5, rpk5)] }
      { records := [.Range 3 5], nackFlag := true } = [] ∧
    SendQueue.nackHandle { sq0 with ack := [(5, rpk5)] }
      { records := [.Single 5], nackFlag := true } = [rpk5] ∧
    rpk5.sequence = 5 := by
  decide

/-- C4: the ACK-removal claim fails on the code at the inclusive right
endpoint of a Range record.  With the recovery queue holding sequences
3, 4 and 5 and an inbound ACK carrying `Range(3, 5)`, `Ackable::ack`
removes 3 and 4 but leaves 5 — the source iterates the half-open
`start..end`, never removing the record's right endpoint. -/
theorem ack_range_endpoint_not_removed :
    rqGet ({ sq0 with ack := [(3, rpk3), (4, rpk4), (5, rpk5)] } : SendQueue).ack 5 =
      some rpk5 ∧
    (SendQueue.ackHandle { sq0 with ack := [(3, rpk3), (4, rpk4), (5, rpk5)] }
      { records := [.Range 3 5], nackFlag := false }).ack = [(5, rpk5)] := by
  decide

/-- C10: for the reliabilities `Unreliable` and `Reliable`,
`SendQueue::insert` returns `Ok(())` for every payload (of any length,
in any queue state, for any `immediate` flag and channel), and the
payload reaches `send_frame` as the single, unfragmented frame of the
emitted `FramePacket`, carrying the requested reliability. -/
theorem insert_unreliable_reliable_always_ok (st : SendQueue)
    (packet : List Nat) (immediate : Bool) (channel : Option Nat) :
    ((SendQueue.insert st packet .Unreliable immediate channel).1 =
        Except.ok () ∧
      (SendQueue.insert st packet .Unreliable immediate channel).2.2.map
        (fun pk => pk.frames.map (fun f => (f.body, f.fragment_meta, f.reliability))) =
        [[(packet, none, ReliabilityQ.Unreliable)]]) ∧
    ((SendQueue.insert st packet .Reliable immediate channel).1 =
        Except.ok () ∧
      (SendQueue.insert st packet .Reliable immediate channel).2.2.map
        (fun pk => pk.frames.map (fun f => (f.body, f.fragment_meta, f.reliability))) =
        [[(packet, none, ReliabilityQ.Reliable)]]) :=
  ⟨⟨rfl, rfl⟩, ⟨rfl, rfl⟩⟩

/-! ### C5, C6 — the receive pipeline of `src/conn.rs` -/

/-- An online handler that produces no reply; the claims below only
exercise user-payload (`0xfe`) frames, which never reach it. -/
def ohEmpty : List Nat → List Nat := fun _ => []

/-- A `FramePacket` with sequence 0 carrying one unfragmented
user-payload frame (body `fe 09 09`). -/
def c5Fp : FramePacket :=
  { seq := 0, frames := [{ Frame.init with body := [254, 9, 9] }] }

/-- C5: the deduplication claim fails on the code.  After the first
injection of `c5Fp` its sequence 0 sits in the ACK queue, yet a second
injection of the very same packet is processed again in full —
`Connection::handle_frames` pushes the sequence without any duplicate
check and then handles every frame — so after 2 injections the user
callback has been invoked twice (not at most once) for the packet's
single user-payload frame. -/
theorem duplicate_framepacket_frames_reprocessed :
    (handle_frames ohEmpty Connection.new c5Fp).map
      (fun p => p.1.ack.contains c5Fp.seq) = some true ∧
    ((handle_frames ohEmpty Connection.new c5Fp).bind fun p =>
      (handle_frames ohEmpty p.1 c5Fp).map fun q => p.2 ++ q.2) =
      some [[254, 9, 9], [254, 9, 9]] := by
  decide

/-- An `UnreliableSequenced` user-payload frame with `sequence_index = 5`
on channel 0 (flags byte `0x20`). -/
def c6FrameA : Frame :=
  { Frame.init with
      sequence_index := some 5
      order_channel := some 0
      reliability := Reliability.from_bit 32
      body := [254, 5] }

/-- An `UnreliableSequenced` user-payload frame with `sequence_index = 3`
on channel 0, stale relative to `c6FrameA`. -/
def c6FrameB : Frame :=
  { Frame.init with
      sequence_index := some 3
      order_channel := some 0
      reliability := Reliability.from_bit 32
      body := [254, 3] }

/-- C6: the sequenced-drop claim fails on the code.  Both frames are
sequenced, frame B's `sequence_index = 3` is not greater than the 5
already delivered on the channel, yet after the two packets are handled
the user callback has observed both payloads (the source performs no
sequencing check at all — `handle_full_frame` carries a `todo` in its
place). -/
theorem stale_sequenced_frame_still_delivered :
    Reliability.is_seq c6FrameA.reliability.to_byte = true ∧
    Reliability.is_seq c6FrameB.reliability.to_byte = true ∧
    c6FrameA.sequence_index = some 5 ∧
    c6FrameB.sequence_index = some 3 ∧
    ((handle_frames ohEmpty Connection.new { seq := 0, frames := [c6FrameA] }).bind
      fun p =>
        (handle_frames ohEmpty p.1 { seq := 1, frames := [c6FrameB] }).map
          fun q => p.2 ++ q.2) =
      some [[254, 5], [254, 3]] := by
  decide

/-! ### C7 — connection creation by the dispatcher -/

/-- A demo remote address, `127.0.0.1:19132`. -/
def c7Addr : RsSocketAddr := { ip := .v4 127 0 0 1, port := 19132 }

/-- C7 counterexample: on the first datagram from `c7Addr` the dispatcher
does create a peer-table entry, but the created connection's state is
`Disconnected`, not `Offline` as the claim states —
`Connection::new` initialises `state: ConnectionState::Disconnected`. -/
theorem new_connection_state_not_offline :
    (dispatchDatagram [] c7Addr).lookup (tokenize_addr c7Addr) =
      some Connection.new ∧
    Connection.new.state = ConnectionState.Disconnected ∧
    Connection.new.state ≠ ConnectionState.Offline := by
  decide

/-- C7 as amended: when a datagram arrives from a source address with no
entry in the peer table, the dispatcher creates a new `Connection` for
that address whose initial state is `Disconnected` — the state in which
the offline handshake is handled (`recv` routes through
`handle_offline` exactly when `state.is_disconnected()`); `Offline` is
the state the sender thread evicts. -/
theorem dispatch_creates_disconnected_connection
    (table : List (String × Connection)) (remote : RsSocketAddr)
    (h : table.lookup (tokenize_addr remote) = none) :
    dispatchDatagram table remote =
      table ++ [(tokenize_addr remote, Connection.new)] ∧
    Connection.new.state = ConnectionState.Disconnected ∧
    Connection.new.state.is_disconnected = true := by
  refine ⟨?_, rfl, rfl⟩
  simp [dispatchDatagram, h]

/-- Witness for `dispatch_creates_disconnected_connection` at the empty
peer table and the demo address. -/
theorem dispatch_creates_disconnected_connection_witness :
    ([] : List (String × Connection)).lookup (tokenize_addr c7Addr) = none ∧
    (dispatchDatagram [] c7Addr =
        [] ++ [(tokenize_addr c7Addr, Connection.new)] ∧
      Connection.new.state = ConnectionState.Disconnected ∧
      Connection.new.state.is_disconnected = true) :=
  ⟨rfl, dispatch_creates_disconnected_connection [] c7Addr rfl⟩

/-! ### C8 — outbound sequence numbers -/

/-- The `send_seq` counter reached after `k` assignments is the start
value advanced `k` times through the wrapping 32-bit increment of
`next_send_seq`. -/
theorem sendSeqState_closed (s0 : Nat) (h : s0 < 4294967296) :
    ∀ k, sendSeqState s0 k = (s0 + k) % 4294967296 := by
  intro k
  induction k with
  | zero => simp [sendSeqState, Nat.mod_eq_of_lt h]
  | succ k ih => simp [sendSeqState, next_send_seq, ih]; omega

/-- C8: per connection, the 24-bit sequence numbers assigned to
successive outbound `FramePacket`s by the `send_seq` counter are strictly
increasing modulo `2^24`: the `(k+2)`-th assigned sequence is the
successor mod `2^24` of the `(k+1)`-th, and no sequence value recurs
within any window of fewer than `2^24` assignments (i.e. before the
24-bit value wraps). -/
theorem framepacket_sequence_successor_mod_u24 (s0 j k : Nat)
    (h0 : s0 < 4294967296) (hjk : j < k) (hw : k - j < 16777216) :
    assignedSeq s0 (k + 1) = (assignedSeq s0 k + 1) % 16777216 ∧
    assignedSeq s0 j ≠ assignedSeq s0 k := by
  simp only [assignedSeq, next_send_seq, sendSeqState_closed s0 h0]
  constructor
  · omega
  · intro hEq
    omega

/-- Witness for `framepacket_sequence_successor_mod_u24` at the fresh
counter, comparing the first and second assignments. -/
theorem framepacket_sequence_successor_mod_u24_witness :
    0 < 4294967296 ∧ 0 < 1 ∧ 1 - 0 < 16777216 ∧
    (assignedSeq 0 2 = (assignedSeq 0 1 + 1) % 16777216 ∧
      assignedSeq 0 0 ≠ assignedSeq 0 1) :=
  ⟨by decide, by decide, by decide,
    framepacket_sequence_successor_mod_u24 0 0 1 (by decide) (by decide)
      (by decide)⟩

/-! ### C9 — socket-address codec -/

/-- C9 counterexample: encoding an IPv6 socket address does not produce
the legacy RakNet layout (nor any bytes at all): `write_address` writes
the family byte and then panics, because it splits the colon-separated
address string on `"."` and decimal-parses the whole string as one
octet.  On the read side a family byte other than 4 is not parsed as the
legacy layout either but yields the dummy address `0.0.0.0:0`. -/
theorem write_address_ipv6_produces_no_bytes :
    write_address { ip := .v6 "::1", port := 19132 } = none ∧
    read_address [6, 0, 19, 132, 0, 0, 0] =
      some { ip := .v4 0 0 0 0, port := 0 } := by
  decide

set_option maxRecDepth 4000 in
/-- Decimal parsing inverts decimal printing on byte values: the standard
round trip that `write_address` relies on for IPv4 octets. -/
theorem u8Parse_toString (m : Nat) (hm : m ≤ 255) :
    u8FromStrRadix10 (toString m) = some m := by
  have H : ∀ n ∈ List.range 256, u8FromStrRadix10 (toString n) = some n := by
    decide
  exact H m (List.mem_range.mpr (by omega))

/-- C9 as amended: encoding an IPv4 socket address writes exactly the
family byte 4, the four address octets in order, then the 2-byte
big-endian port, and `read_address` decodes those bytes back to the
original address (round trip).  The IPv6 clause of the claim fails (see
the counterexample): an IPv6 address makes `write_address` panic after
the family byte instead of producing the legacy RakNet layout. -/
theorem ipv4_address_codec_roundtrip (a b c d p : Nat) (ha : a ≤ 255)
    (hb : b ≤ 255) (hc : c ≤ 255) (hd : d ≤ 255) (hp : p < 65536) :
    write_address { ip := .v4 a b c d, port := p } =
      some ([4, a, b, c, d] ++ [p / 256, p % 256]) ∧
    read_address ([4, a, b, c, d] ++ [p / 256, p % 256]) =
      some { ip := .v4 a b c d, port := p } := by
  constructor
  · simp [write_address, ipStringComponents, writeOctets, write_ushort,
      writeU16BE, u8Parse_toString a ha, u8Parse_toString b hb,
      u8Parse_toString c hc, u8Parse_toString d hd, Nat.mod_eq_of_lt hp]
  · simp [read_address, readU8, readU16BE]
    omega

/-- Witness for `ipv4_address_codec_roundtrip` at `192.168.0.1:19132`. -/
theorem ipv4_address_codec_roundtrip_witness :
    192 ≤ 255 ∧ 168 ≤ 255 ∧ 0 ≤ 255 ∧ 1 ≤ 255 ∧ 19132 < 65536 ∧
    (write_address { ip := .v4 192 168 0 1, port := 19132 } =
        some ([4, 192, 168, 0, 1] ++ [19132 / 256, 19132 % 256]) ∧
      read_address ([4, 192, 168, 0, 1] ++ [19132 / 256, 19132 % 256]) =
        some { ip := .v4 192 168 0 1, port := 19132 }) :=
  ⟨by decide, by decide, by decide, by decide, by decide,
    ipv4_address_codec_roundtrip 192 168 0 1 19132 (by decide) (by decide)
      (by decide) (by decide) (by decide)⟩
